import Mathlib

/-!
# Verification of the musicclubbot server core

A shallow embedding, in Lean 4, of the request-authorization pipeline, the
token codec, the field-mask partial-update merge, and the store error
mapping of the musicclubbot gRPC server (`src/server/src/grpc/`), together
with theorems settling the specification's claims about them.

Conventions of the embedding:
* Rust `u64`/`usize` become `Nat`; `i32`/`i64` become `Int` where sign
  matters.
* The JWT wire format is produced and checked by the external
  `jsonwebtoken` crate, which the specification treats as a black box; a
  token is modelled as either `malformed` (any string that fails to decode)
  or `signed claims secret` (the string `encode(claims)` under `secret`),
  with verification succeeding exactly when the secret matches and the
  token is unexpired (spec section 4.1: verify fails on signature mismatch,
  malformed input, or `now >= expires_at`).
* A metadata value carrying a user id is modelled by `UserIdVal`: `num n`
  stands for the decimal string of `n` (what `u64::to_string` produces and
  `str::parse::<u64>` reads back), `other s` for any other string.
* Fallible handlers return `Except Status α`; the `AdminOnlyMiddleware`
  rejection (which in Rust is an `Ok` HTTP response wrapping a gRPC error
  status) is modelled as the `.error` branch, which is the client-observable
  outcome.
-/

namespace MusicClub

/-- gRPC status codes used by the server. -/
inductive StatusCode where
  | ok
  | invalidArgument
  | unauthenticated
  | permissionDenied
  | notFound
  | internal
deriving DecidableEq, Repr

/-- A gRPC `Status`: the code plus the client-visible message. -/
structure Status where
  code : StatusCode
  msg : String
deriving DecidableEq, Repr

/-- `Status::invalid_argument(m)`. -/
def Status.invalid_argument (m : String) : Status :=
  ⟨.invalidArgument, m⟩

/-- `Status::unauthenticated(m)`. -/
def Status.unauthenticated (m : String) : Status :=
  ⟨.unauthenticated, m⟩

/-- `Status::permission_denied(m)`. -/
def Status.permission_denied (m : String) : Status :=
  ⟨.permissionDenied, m⟩

/-- `Status::not_found(m)`. -/
def Status.not_found (m : String) : Status :=
  ⟨.notFound, m⟩

/-- `Status::internal(m)`. -/
def Status.internal (m : String) : Status :=
  ⟨.internal, m⟩

/-- JWT claims (`struct Claims` in `src/server/src/grpc/auth.rs`). -/
structure Claims where
  sub : Nat
  exp : Nat
  iat : Nat
  is_admin : Bool
deriving DecidableEq, Repr

/-- A JWT string. `signed c k` stands for the string `encode(&c)` produced
under secret `k`; `malformed s` stands for any string that is not a
well-formed JWT under any key. The cryptography itself lives in the
external `jsonwebtoken` crate (a black box per the spec); only the claims
construction and the validation outcome are part of the model. -/
inductive Token where
  | malformed (s : String)
  | signed (claims : Claims) (secret : String)
deriving DecidableEq, Repr

/-- `AuthServer` (`src/server/src/grpc/auth.rs`): signing key, privilege
set and token time-to-live. The `HashSet<u64>` of admin ids is modelled as
a `List Nat` queried with `contains`. -/
structure AuthServer where
  secret : String
  admin_ids : List Nat
  ttl : Nat
deriving DecidableEq, Repr

/-- The claims built by `AuthServer::sign`: `sub = payload`, `iat = now`,
`exp = now + ttl`, `is_admin = admin_ids.contains(payload)`. -/
def AuthServer.signClaims (srv : AuthServer) (now payload : Nat) : Claims :=
  { sub := payload
    iat := now
    exp := now + srv.ttl
    is_admin := srv.admin_ids.contains payload }

/-- `AuthServer::sign`: encode the claims under the server's secret. -/
def AuthServer.sign (srv : AuthServer) (now payload : Nat) : Token :=
  .signed (srv.signClaims now payload) srv.secret

/-- `AuthInterceptor` (`src/server/src/grpc/auth.rs`): holds the decoding
key derived from the same shared secret. -/
structure AuthInterceptor where
  secret : String
deriving DecidableEq, Repr

/-- `AuthInterceptor::decode`: verify signature and expiry
(`validate_exp = true`), returning the claims on success and
`Unauthenticated("invalid token")` on any failure. -/
def AuthInterceptor.decode (self : AuthInterceptor) (now : Nat) (tok : Token) :
    Except Status Claims :=
  match tok with
  | .malformed _ => .error (Status.unauthenticated "invalid token")
  | .signed c k =>
      if k = self.secret ∧ now < c.exp then .ok c
      else .error (Status.unauthenticated "invalid token")

/-- The value of an `authorization` metadata entry: a token either carrying
the `"Bearer "` prefix or sent bare. -/
inductive AuthHeaderVal where
  | bearer (t : Token)
  | raw (t : Token)
deriving DecidableEq, Repr

/-- `path.ends_with(suffix)` (Rust `str::ends_with`), stated over the
character lists so that it evaluates by kernel reduction. -/
def endsWithStr (s suffix : String) : Bool :=
  suffix.data.isSuffixOf s.data

/-- `auth_header.strip_prefix("Bearer ").unwrap_or(auth_header)`. -/
def stripBearer : AuthHeaderVal → Token
  | .bearer t => t
  | .raw t => t

/-- A metadata value read as an `x-user-id`: `num n` is the decimal string
of `n` (as written by `u64::to_string` and read by `str::parse::<u64>`),
`other s` any other string. -/
inductive UserIdVal where
  | num (n : Nat)
  | other (s : String)
deriving DecidableEq, Repr

/-- `value.to_str().ok().and_then(|v| v.parse::<u64>().ok())`. -/
def parseUserId : UserIdVal → Option Nat
  | .num n => some n
  | .other s => s.toNat?

/-- The parts of an inbound HTTP/gRPC request the pipeline observes: the
URI path and the two metadata entries it reads or writes. `insert`
replaces any existing value of the entry, as `HeaderMap::insert` does. -/
structure HttpReq where
  path : String
  authorization : Option AuthHeaderVal
  x_user_id : Option UserIdVal
deriving DecidableEq, Repr

/-- `AuthInterceptor::intercept`: pass non-`/CreateConcert` calls through
unchanged; otherwise require an `authorization` entry, decode the bearer
token, and on success overwrite `x-user-id` with the verified subject. -/
def AuthInterceptor.intercept (self : AuthInterceptor) (now : Nat) (req : HttpReq) :
    Except Status HttpReq :=
  if endsWithStr req.path "/CreateConcert" = false then .ok req
  else
    match req.authorization with
    | none => .error (Status.unauthenticated "authorization header required")
    | some h =>
      match self.decode now (stripBearer h) with
      | .error e => .error e
      | .ok claims => .ok { req with x_user_id := some (.num claims.sub) }

/-- `AdminOnlyMiddleware` (`src/server/src/grpc/middleware.rs`): the
privilege set consulted on privileged calls. -/
structure AdminOnlyMiddleware where
  admin_ids : List Nat
deriving DecidableEq, Repr

/-- `AdminOnlyMiddleware::call`: on `/CreateConcert` calls, parse
`x-user-id` and require membership in `admin_ids`, rejecting with
`PermissionDenied("admin required")` otherwise; forward the request to the
service in every other case. `.ok req` means the request reached the
handler. -/
def AdminOnlyMiddleware.call (self : AdminOnlyMiddleware) (req : HttpReq) :
    Except Status HttpReq :=
  if endsWithStr req.path "/CreateConcert" then
    match req.x_user_id.bind parseUserId with
    | none => .error (Status.permission_denied "admin required")
    | some uid =>
      if self.admin_ids.contains uid then .ok req
      else .error (Status.permission_denied "admin required")
  else .ok req

/-- The two-stage pipeline as wired in `main.rs`:
`RequestInterceptorLayer(AuthInterceptor)` runs first, then
`MiddlewareLayer(AdminOnlyMiddleware)`, then the handler. -/
def pipeline (secret : String) (admins : List Nat) (now : Nat) (req : HttpReq) :
    Except Status HttpReq :=
  match AuthInterceptor.intercept ⟨secret⟩ now req with
  | .error e => .error e
  | .ok req2 => AdminOnlyMiddleware.call ⟨admins⟩ req2

/-! ## Song resource (`src/server/src/grpc/song.rs`) -/

/-- The protobuf `Song` message: every field present, strings defaulted to
`""` when unset on the wire. -/
structure SongMsg where
  id : Nat
  title : String
  description : String
  link : String
deriving DecidableEq, Repr

/-- `SongRecord`: the stored shape, with independently nullable
`description` and `link`. -/
structure SongRecord where
  id : Nat
  title : String
  description : Option String
  link : Option String
deriving DecidableEq, Repr

/-- `StoreError`: the two error kinds every store surfaces (`NotFound`,
`Database(diagnostic)`); the same enum shape is declared in each of
`song.rs`, `concert.rs` and `participation.rs`. -/
inductive StoreError where
  | NotFound
  | Database (message : String)
deriving DecidableEq, Repr

/-- `value.trim().is_empty()`: true exactly when every character of the
string is whitespace (trimming whitespace from both ends leaves the empty
string). Stated over the character list so that it evaluates by kernel
reduction. -/
def trimEmpty (s : String) : Bool :=
  s.data.all Char.isWhitespace

/-- `empty_to_none`: whitespace-only (or empty) becomes `None`, anything
else is kept verbatim (`Some(value)`, not the trimmed string). -/
def empty_to_none (value : String) : Option String :=
  if trimEmpty value then none else some value

/-- `record_to_song`: render a stored record as the wire message, absent
optional fields becoming `""` (`unwrap_or_default`). -/
def record_to_song (record : SongRecord) : SongMsg :=
  { id := record.id
    title := record.title
    description := record.description.getD ""
    link := record.link.getD "" }

/-- The `for path in paths` loop of `apply_song_update_mask`: overwrite the
named field of the accumulator from `incoming`, aborting on the first
unrecognized name. -/
def applySongPaths (incoming : SongMsg) : List String → SongMsg → Except Status SongMsg
  | [], updated => .ok updated
  | path :: rest, updated =>
    if path = "title" then
      applySongPaths incoming rest { updated with title := incoming.title }
    else if path = "description" then
      applySongPaths incoming rest { updated with description := incoming.description }
    else if path = "link" then
      applySongPaths incoming rest { updated with link := incoming.link }
    else
      .error (Status.invalid_argument "unsupported update_mask path")

/-- `apply_song_update_mask`: start from `record_to_song(existing)`; with no
mask (or an empty path list) overwrite title, description and link from
`incoming`; otherwise overwrite exactly the masked fields, rejecting
unknown names. The `mask` is `Option FieldMask`, carried here as its
`paths` list. -/
def apply_song_update_mask (existing : SongRecord) (incoming : SongMsg)
    (mask : Option (List String)) : Except Status SongMsg :=
  let updated := record_to_song existing
  let paths := mask.getD []
  if paths.isEmpty then
    .ok { updated with
            title := incoming.title
            description := incoming.description
            link := incoming.link }
  else
    applySongPaths incoming paths updated

/-- `sanitize_page_size`: default non-positive page sizes to 100, then cap
at 500 (`size.min(500)` widened to `i64`). -/
def sanitize_page_size (page_size : Int) : Int :=
  let size := if page_size ≤ 0 then 100 else page_size
  min size 500

/-- `map_store_error` in `song.rs`. -/
def map_store_error_song (err : StoreError) : Status :=
  match err with
  | .NotFound => Status.not_found "song not found"
  | .Database message => Status.internal ("database error: " ++ message)

/-! ## Concert resource (`src/server/src/grpc/concert.rs`) -/

/-- `prost_types::Timestamp`: seconds since epoch plus nanoseconds. -/
structure Timestamp where
  seconds : Int
  nanos : Int
deriving DecidableEq, Repr

/-- `chrono::NaiveDate`, modelled by its day number relative to the epoch.
The calendar arithmetic lives in the external `chrono` crate; only the two
conversions the server performs are modelled, agreeing with chrono on this
representation. -/
structure NaiveDate where
  days : Int
deriving DecidableEq, Repr

/-- `timestamp_from_date`: midnight UTC of the date
(`and_hms_opt(0,0,0)` always succeeds, so the result is always `Some`). -/
def timestamp_from_date (date : NaiveDate) : Option Timestamp :=
  some { seconds := date.days * 86400, nanos := 0 }

/-- `date_from_timestamp`: reject negative nanoseconds
(`u32::try_from(nanos)` fails), then take the calendar date of the instant
(floor division of the seconds by 86400). -/
def date_from_timestamp (timestamp : Option Timestamp) : Option NaiveDate :=
  match timestamp with
  | none => none
  | some ts =>
      if ts.nanos < 0 then none
      else some { days := Int.fdiv ts.seconds 86400 }

/-- The protobuf `Concert` message. -/
structure ConcertMsg where
  id : Nat
  name : String
  date : Option Timestamp
deriving DecidableEq, Repr

/-- `ConcertRecord`: the stored shape, with a nullable calendar date. -/
structure ConcertRecord where
  id : Nat
  name : String
  date : Option NaiveDate
deriving DecidableEq, Repr

/-- `record_to_concert`: render a stored record as the wire message. -/
def record_to_concert (row : ConcertRecord) : ConcertMsg :=
  { id := row.id
    name := row.name
    date := row.date.bind timestamp_from_date }

/-- The `for path in paths` loop of `apply_concert_update_mask`. -/
def applyConcertPaths (incoming : ConcertMsg) :
    List String → ConcertMsg → Except Status ConcertMsg
  | [], updated => .ok updated
  | path :: rest, updated =>
    if path = "name" then
      applyConcertPaths incoming rest { updated with name := incoming.name }
    else if path = "date" then
      applyConcertPaths incoming rest { updated with date := incoming.date }
    else
      .error (Status.invalid_argument "unsupported update_mask path")

/-- `apply_concert_update_mask`: same shape as the song merge, over the
`name` and `date` fields. -/
def apply_concert_update_mask (existing : ConcertRecord) (incoming : ConcertMsg)
    (mask : Option (List String)) : Except Status ConcertMsg :=
  let updated := record_to_concert existing
  let paths := mask.getD []
  if paths.isEmpty then
    .ok { updated with name := incoming.name, date := incoming.date }
  else
    applyConcertPaths incoming paths updated

/-- `map_store_error` in `concert.rs`. -/
def map_store_error_concert (err : StoreError) : Status :=
  match err with
  | .NotFound => Status.not_found "concert not found"
  | .Database message => Status.internal ("database error: " ++ message)

/-! ## Participation resource (`src/server/src/grpc/participation.rs`) -/

/-- The protobuf `Participation` message. -/
structure ParticipationMsg where
  tg_id : Nat
  song_id : Nat
  role_title : String
deriving DecidableEq, Repr

/-- The `for path in paths` loop of `apply_participation_update_mask`:
`"role_title"` copies the field from the (single) input message onto the
clone of that same message; `"tg_id"` and `"song_id"` are rejected as
unsupported identity updates; anything else is an unknown path. -/
def applyParticipationPaths (participation : ParticipationMsg) :
    List String → ParticipationMsg → Except Status ParticipationMsg
  | [], updated => .ok updated
  | path :: rest, updated =>
    if path = "role_title" then
      applyParticipationPaths participation rest
        { updated with role_title := participation.role_title }
    else if path = "tg_id" ∨ path = "song_id" then
      .error (Status.invalid_argument "updating tg_id or song_id is not supported")
    else
      .error (Status.invalid_argument "unsupported update_mask path")

/-- `apply_participation_update_mask`: unlike the song and concert merges,
this takes only the incoming `participation` message — there is no
`existing` parameter — and starts from a clone of it. -/
def apply_participation_update_mask (participation : ParticipationMsg)
    (mask : Option (List String)) : Except Status ParticipationMsg :=
  let updated := participation
  let paths := mask.getD []
  if paths.isEmpty then .ok updated
  else applyParticipationPaths participation paths updated

/-- `map_store_error` in `participation.rs`. -/
def map_store_error_participation (err : StoreError) : Status :=
  match err with
  | .NotFound => Status.not_found "participation not found"
  | .Database message => Status.internal ("database error: " ++ message)

/-! ## Song store and the `update_song` handler

The `SongStore` trait is modelled by an association of ids to records (a
`List SongRecord` looked up by id, as the in-memory mock store in
`song.rs`'s tests realizes it); `get` fails `NotFound` on a missing id and
`update` replaces the record at the id, failing `NotFound` when absent. -/

/-- `SongStore::get`. -/
def storeGetSong (st : List SongRecord) (id : Nat) : Except StoreError SongRecord :=
  match st.find? (fun r => r.id = id) with
  | some r => .ok r
  | none => .error .NotFound

/-- `SongStore::update`: full-row overwrite of the record at `song.id`. -/
def storeUpdateSong (st : List SongRecord) (song : SongRecord) :
    Except StoreError (List SongRecord × SongRecord) :=
  if st.any (fun r => r.id = song.id) then
    .ok (st.map (fun r => if r.id = song.id then song else r), song)
  else
    .error .NotFound

/-- `UpdateSongRequest`: optional payload plus optional field mask. -/
structure UpdateSongRequest where
  song : Option SongMsg
  update_mask : Option (List String)
deriving DecidableEq, Repr

/-- `SongServer::update_song`: validate the payload, fetch the existing
record, apply the mask, re-validate the title, normalize the optional
fields and write the full row back. Returns the new store contents and the
response message. -/
def update_song (st : List SongRecord) (req : UpdateSongRequest) :
    Except Status (List SongRecord × SongMsg) :=
  match req.song with
  | none => .error (Status.invalid_argument "update_song requires song payload")
  | some song =>
    if song.id = 0 then .error (Status.invalid_argument "song id is required")
    else
      match storeGetSong st song.id with
      | .error e => .error (map_store_error_song e)
      | .ok existing =>
        match apply_song_update_mask existing song req.update_mask with
        | .error e => .error e
        | .ok updated =>
          if trimEmpty updated.title then
            .error (Status.invalid_argument "song title is required")
          else
            match storeUpdateSong st
                { id := song.id
                  title := updated.title
                  description := empty_to_none updated.description
                  link := empty_to_none updated.link } with
            | .error e => .error (map_store_error_song e)
            | .ok (st2, r) => .ok (st2, record_to_song r)

/-- The store contents after an `update_song` call: unchanged whenever the
call fails. -/
def update_song_store (st : List SongRecord) (req : UpdateSongRequest) :
    List SongRecord :=
  match update_song st req with
  | .ok (st2, _) => st2
  | .error _ => st

/-- The pure part of `SongServer::create_song`: the record handed to
`SongStore::create` (which then assigns the fresh id), or the validation
error. -/
def create_song_record (song : Option SongMsg) : Except Status SongRecord :=
  match song with
  | none => .error (Status.invalid_argument "create_song requires song payload")
  | some s =>
    if trimEmpty s.title then .error (Status.invalid_argument "song title is required")
    else
      .ok { id := 0
            title := s.title
            description := empty_to_none s.description
            link := empty_to_none s.link }

/-! ## Helper lemmas -/

/-- A song mask path is one of the three recognized field names. -/
def songPathOk (p : String) : Prop :=
  p = "title" ∨ p = "description" ∨ p = "link"

/-- A concert mask path is one of the two recognized field names. -/
def concertPathOk (p : String) : Prop :=
  p = "name" ∨ p = "date"

theorem applySongPaths_eq (inc : SongMsg) (paths : List String) (u : SongMsg)
    (hrec : ∀ p ∈ paths, songPathOk p) :
    applySongPaths inc paths u = .ok
      { id := u.id
        title := if "title" ∈ paths then inc.title else u.title
        description := if "description" ∈ paths then inc.description else u.description
        link := if "link" ∈ paths then inc.link else u.link } := by
  induction paths generalizing u with
  | nil => simp [applySongPaths]
  | cons p ps ih =>
    have hp : songPathOk p := hrec p (List.mem_cons_self p ps)
    have hrest : ∀ q ∈ ps, songPathOk q := fun q hq => hrec q (List.mem_cons_of_mem p hq)
    rcases hp with h | h | h <;> subst h <;>
      simp [applySongPaths, ih _ hrest, List.mem_cons]

theorem applyConcertPaths_eq (inc : ConcertMsg) (paths : List String) (u : ConcertMsg)
    (hrec : ∀ p ∈ paths, concertPathOk p) :
    applyConcertPaths inc paths u = .ok
      { id := u.id
        name := if "name" ∈ paths then inc.name else u.name
        date := if "date" ∈ paths then inc.date else u.date } := by
  induction paths generalizing u with
  | nil => simp [applyConcertPaths]
  | cons p ps ih =>
    have hp : concertPathOk p := hrec p (List.mem_cons_self p ps)
    have hrest : ∀ q ∈ ps, concertPathOk q := fun q hq => hrec q (List.mem_cons_of_mem p hq)
    rcases hp with h | h <;> subst h <;>
      simp [applyConcertPaths, ih _ hrest, List.mem_cons]

theorem applyParticipationPaths_eq (inc : ParticipationMsg) (paths : List String)
    (u : ParticipationMsg) (hrec : ∀ p ∈ paths, p = "role_title") :
    applyParticipationPaths inc paths u = .ok
      { u with role_title :=
          if "role_title" ∈ paths then inc.role_title else u.role_title } := by
  induction paths generalizing u with
  | nil => simp [applyParticipationPaths]
  | cons p ps ih =>
    have hp : p = "role_title" := hrec p (List.mem_cons_self p ps)
    have hrest : ∀ q ∈ ps, q = "role_title" := fun q hq => hrec q (List.mem_cons_of_mem p hq)
    subst hp
    simp [applyParticipationPaths, ih _ hrest, List.mem_cons]

theorem apply_song_update_mask_eq (ex : SongRecord) (inc : SongMsg)
    (paths : List String) (hne : paths ≠ []) (hrec : ∀ p ∈ paths, songPathOk p) :
    apply_song_update_mask ex inc (some paths) = .ok
      { id := ex.id
        title := if "title" ∈ paths then inc.title else (record_to_song ex).title
        description :=
          if "description" ∈ paths then inc.description else (record_to_song ex).description
        link := if "link" ∈ paths then inc.link else (record_to_song ex).link } := by
  cases paths with
  | nil => exact absurd rfl hne
  | cons p ps =>
    rw [apply_song_update_mask]
    simp only [Option.getD_some, List.isEmpty_cons, applySongPaths_eq inc _ _ hrec]
    rfl

theorem apply_concert_update_mask_eq (ex : ConcertRecord) (inc : ConcertMsg)
    (paths : List String) (hne : paths ≠ []) (hrec : ∀ p ∈ paths, concertPathOk p) :
    apply_concert_update_mask ex inc (some paths) = .ok
      { id := ex.id
        name := if "name" ∈ paths then inc.name else (record_to_concert ex).name
        date := if "date" ∈ paths then inc.date else (record_to_concert ex).date } := by
  cases paths with
  | nil => exact absurd rfl hne
  | cons p ps =>
    rw [apply_concert_update_mask]
    simp only [Option.getD_some, List.isEmpty_cons, applyConcertPaths_eq inc _ _ hrec]
    rfl

/-! ## Claims -/

/-- C8: `sanitize_page_size` defaults every non-positive page size to
exactly 100, clamps every positive one to at most 500, and always yields a
limit between 1 and 500 inclusive. -/
theorem c8_page_size_clamped (page_size : Int) :
    (page_size ≤ 0 → sanitize_page_size page_size = 100) ∧
    (0 < page_size → sanitize_page_size page_size = min page_size 500) ∧
    1 ≤ sanitize_page_size page_size ∧ sanitize_page_size page_size ≤ 500 := by
  unfold sanitize_page_size
  by_cases h : page_size ≤ 0
  · simp [h]
  · simp [h]
    omega

theorem c8_page_size_clamped_witness :
    sanitize_page_size 0 = 100 ∧ sanitize_page_size 7 = 7 ∧
    sanitize_page_size 10000 = 500 := by
  refine ⟨(c8_page_size_clamped 0).1 (by norm_num), ?_, ?_⟩
  · have h := (c8_page_size_clamped 7).2.1 (by norm_num)
    rw [h]; norm_num
  · have h := (c8_page_size_clamped 10000).2.1 (by norm_num)
    rw [h]; norm_num

/-- C9 counterexample: a `Backend` (`Database`) failure is surfaced with
the backend diagnostic embedded verbatim in the client-visible message, so
the message is not a generic wrapper string independent of backend-internal
details: two different diagnostics give two different client messages. -/
theorem c9_counterexample :
    (map_store_error_song (.Database "connection refused")).msg =
      "database error: " ++ "connection refused" ∧
    map_store_error_song (.Database "diag A") ≠ map_store_error_song (.Database "diag B") := by
  exact ⟨rfl, by decide⟩

/-- C9 amended: every `Backend` store failure is surfaced as `Internal`,
and its client-visible message is the wrapper prefix `"database error: "`
followed by the backend diagnostic verbatim (the diagnostic is included,
not hidden), identically in the song, concert and participation
handlers. -/
theorem c9_backend_error_internal (message : String) :
    map_store_error_song (.Database message) =
      Status.internal ("database error: " ++ message) ∧
    map_store_error_concert (.Database message) =
      Status.internal ("database error: " ++ message) ∧
    map_store_error_participation (.Database message) =
      Status.internal ("database error: " ++ message) ∧
    (map_store_error_song (.Database message)).code = .internal := by
  exact ⟨rfl, rfl, rfl, rfl⟩

/-- C5 counterexample: with an absent mask the merge result is not
`incoming` verbatim and not independent of `existing`: the `id` field of
the result is the existing record's id (here 1), not incoming's (here
2). -/
theorem c5_counterexample :
    apply_song_update_mask ⟨1, "old", none, none⟩ ⟨2, "new", "d", "l"⟩ none =
      .ok ⟨1, "new", "d", "l"⟩ ∧
    (⟨1, "new", "d", "l"⟩ : SongMsg) ≠ ⟨2, "new", "d", "l"⟩ := by
  exact ⟨rfl, by decide⟩

/-- C5 amended: with an empty or absent mask, every settable field of the
result (`title`, `description`, `link` for songs; `name`, `date` for
concerts) equals incoming's value verbatim, independent of `existing`,
while the `id` field is carried over from the existing record. -/
theorem c5_empty_mask_full_replace (ex : SongRecord) (inc : SongMsg)
    (exc : ConcertRecord) (incc : ConcertMsg) :
    apply_song_update_mask ex inc none =
      .ok { id := ex.id, title := inc.title, description := inc.description,
            link := inc.link } ∧
    apply_song_update_mask ex inc (some []) =
      .ok { id := ex.id, title := inc.title, description := inc.description,
            link := inc.link } ∧
    apply_concert_update_mask exc incc none =
      .ok { id := exc.id, name := incc.name, date := incc.date } ∧
    apply_concert_update_mask exc incc (some []) =
      .ok { id := exc.id, name := incc.name, date := incc.date } := by
  exact ⟨rfl, rfl, rfl, rfl⟩

instance {ε α : Type} [DecidableEq ε] [DecidableEq α] : DecidableEq (Except ε α) :=
  fun x y =>
    match x, y with
    | .ok a, .ok b => decidable_of_iff (a = b) (by simp)
    | .ok _, .error _ => isFalse (by simp)
    | .error _, .ok _ => isFalse (by simp)
    | .error e, .error f => decidable_of_iff (e = f) (by simp)

instance (p : String) : Decidable (songPathOk p) := by
  unfold songPathOk; infer_instance

instance (p : String) : Decidable (concertPathOk p) := by
  unfold concertPathOk; infer_instance

/-- A stored optional text field is normalized: whenever present, its
content does not trim to the empty string, i.e. it has at least one
non-whitespace character. -/
def normalized_opt (o : Option String) : Prop :=
  ∀ s, o = some s → trimEmpty s = false

theorem empty_to_none_normalized (v : String) : normalized_opt (empty_to_none v) := by
  intro s hs
  unfold empty_to_none at hs
  by_cases h : trimEmpty v
  · simp [h] at hs
  · simp [h] at hs
    subst hs
    simpa using h

/-- C10: every song record persisted through `create_song` or
`update_song` has `description` and `link` either absent or with at least
one non-whitespace character (empty and whitespace-only inputs are
normalized to absent), and absent fields are rendered as `""` on get. -/
theorem c10_stored_fields_normalized
    (song : Option SongMsg) (r : SongRecord)
    (st : List SongRecord) (req : UpdateSongRequest) (st2 : List SongRecord)
    (msg : SongMsg) (rec : SongRecord) :
    (create_song_record song = .ok r →
      normalized_opt r.description ∧ normalized_opt r.link) ∧
    (update_song st req = .ok (st2, msg) →
      ∀ r2 ∈ st2, r2 ∈ st ∨ (normalized_opt r2.description ∧ normalized_opt r2.link)) ∧
    (rec.description = none → (record_to_song rec).description = "") ∧
    (rec.link = none → (record_to_song rec).link = "") := by
  refine ⟨?_, ?_, ?_, ?_⟩
  · intro h
    cases song with
    | none => simp [create_song_record] at h
    | some s =>
      unfold create_song_record at h
      by_cases ht : trimEmpty s.title
      · simp [ht] at h
      · simp only [ht, Bool.false_eq_true, if_false] at h
        cases h
        exact ⟨empty_to_none_normalized _, empty_to_none_normalized _⟩
  · intro h r2 hr2
    unfold update_song at h
    split at h
    · simp at h
    · rename_i song hsong
      split at h
      · simp at h
      · rename_i hid
        split at h
        · simp at h
        · rename_i existing hget
          split at h
          · simp at h
          · rename_i updated hmask
            split at h
            · simp at h
            · rename_i htitle
              split at h
              · simp at h
              · rename_i st2' r hupd
                simp only [Except.ok.injEq, Prod.mk.injEq] at h
                obtain ⟨ha, -⟩ := h
                unfold storeUpdateSong at hupd
                split at hupd
                · simp only [Except.ok.injEq, Prod.mk.injEq] at hupd
                  obtain ⟨hmap, -⟩ := hupd
                  subst ha
                  rw [← hmap] at hr2
                  obtain ⟨x, hx, hfx⟩ := List.mem_map.mp hr2
                  by_cases hxid : x.id = song.id
                  · rw [if_pos hxid] at hfx
                    right
                    rw [← hfx]
                    exact ⟨empty_to_none_normalized _, empty_to_none_normalized _⟩
                  · rw [if_neg hxid] at hfx
                    left
                    rw [← hfx]
                    exact hx
                · simp at hupd
  · intro h
    simp [record_to_song, h]
  · intro h
    simp [record_to_song, h]

theorem c10_stored_fields_normalized_witness :
    create_song_record (some ⟨0, "t", " ", "x"⟩) = .ok ⟨0, "t", none, some "x"⟩ ∧
    (normalized_opt (none : Option String) ∧ normalized_opt (some "x")) ∧
    update_song [⟨1, "a", some "d", some "l"⟩] ⟨some ⟨1, "b", "", " "⟩, none⟩ =
      .ok ([⟨1, "b", none, none⟩], ⟨1, "b", "", ""⟩) ∧
    ((⟨1, "b", none, none⟩ : SongRecord) ∈ ([⟨1, "a", some "d", some "l"⟩] : List SongRecord) ∨
      (normalized_opt (none : Option String) ∧ normalized_opt (none : Option String))) ∧
    (record_to_song ⟨5, "t", none, none⟩).description = "" := by
  have h1 := (c10_stored_fields_normalized (some ⟨0, "t", " ", "x"⟩)
      ⟨0, "t", none, some "x"⟩ [] ⟨none, none⟩ [] ⟨0, "", "", ""⟩
      ⟨5, "t", none, none⟩).1 (by decide)
  have h2 := c10_stored_fields_normalized none ⟨0, "", none, none⟩
      [⟨1, "a", some "d", some "l"⟩] ⟨some ⟨1, "b", "", " "⟩, none⟩
      [⟨1, "b", none, none⟩] ⟨1, "b", "", ""⟩ ⟨5, "t", none, none⟩
  exact ⟨by decide, h1, by decide, h2.2.1 (by decide) ⟨1, "b", none, none⟩ (by decide),
    h2.2.2.1 rfl⟩

/-- The participation merge as claim C4 describes it: start from the
existing stored record and overwrite exactly the masked fields (only
`role_title` is maskable) from the incoming message. Stated only to
exhibit the divergence from `apply_participation_update_mask`, which never
sees an existing record. -/
def claimedParticipationPaths (incoming : ParticipationMsg) :
    List String → ParticipationMsg → Except Status ParticipationMsg
  | [], acc => .ok acc
  | path :: rest, acc =>
    if path = "role_title" then
      claimedParticipationPaths incoming rest { acc with role_title := incoming.role_title }
    else
      .error (Status.invalid_argument "unsupported update_mask path")

/-- The claim-side participation merge over `(existing, incoming, mask)`. -/
def claimed_participation_merge (existing incoming : ParticipationMsg)
    (paths : List String) : Except Status ParticipationMsg :=
  claimedParticipationPaths incoming paths existing

/-- C4 counterexample: for the existing stored participation
`{tg_id 2, song_id 1, role "a"}` and incoming `{tg_id 9, song_id 1,
role "b"}` with mask `["role_title"]`, the claim requires the non-masked
`tg_id` to keep the existing value 2, but the code's merge — which takes no
existing record at all — returns the incoming message verbatim,
`tg_id = 9`. -/
theorem c4_counterexample :
    apply_participation_update_mask ⟨9, 1, "b"⟩ (some ["role_title"]) =
      .ok ⟨9, 1, "b"⟩ ∧
    claimed_participation_merge ⟨2, 1, "a"⟩ ⟨9, 1, "b"⟩ ["role_title"] =
      .ok ⟨2, 1, "b"⟩ ∧
    (Except.ok (⟨9, 1, "b"⟩ : ParticipationMsg) : Except Status ParticipationMsg) ≠
      .ok ⟨2, 1, "b"⟩ := by
  exact ⟨rfl, rfl, by decide⟩

/-- C4 amended: for songs and concerts the merge with a non-empty mask of
recognized names starts from the existing stored record (as rendered by
`record_to_song` / `record_to_concert`, the id carried from `existing`) and
overwrites exactly the masked fields from `incoming`; the participation
merge instead takes only the incoming message and returns it unchanged for
any non-empty mask naming only `role_title`. -/
theorem c4_masked_merge (ex : SongRecord) (inc : SongMsg) (paths : List String)
    (exc : ConcertRecord) (incc : ConcertMsg) (cpaths : List String)
    (pinc : ParticipationMsg) (ppaths : List String)
    (hne : paths ≠ []) (hrec : ∀ p ∈ paths, songPathOk p)
    (hcne : cpaths ≠ []) (hcrec : ∀ p ∈ cpaths, concertPathOk p)
    (hpne : ppaths ≠ []) (hprec : ∀ p ∈ ppaths, p = "role_title") :
    apply_song_update_mask ex inc (some paths) = .ok
      { id := ex.id
        title := if "title" ∈ paths then inc.title else (record_to_song ex).title
        description :=
          if "description" ∈ paths then inc.description else (record_to_song ex).description
        link := if "link" ∈ paths then inc.link else (record_to_song ex).link } ∧
    apply_concert_update_mask exc incc (some cpaths) = .ok
      { id := exc.id
        name := if "name" ∈ cpaths then incc.name else (record_to_concert exc).name
        date := if "date" ∈ cpaths then incc.date else (record_to_concert exc).date } ∧
    apply_participation_update_mask pinc (some ppaths) = .ok pinc := by
  refine ⟨apply_song_update_mask_eq ex inc paths hne hrec,
    apply_concert_update_mask_eq exc incc cpaths hcne hcrec, ?_⟩
  cases ppaths with
  | nil => exact absurd rfl hpne
  | cons p ps =>
    rw [apply_participation_update_mask]
    simp only [Option.getD_some, List.isEmpty_cons,
      applyParticipationPaths_eq pinc _ _ hprec]
    simp

theorem c4_masked_merge_witness :
    apply_song_update_mask ⟨1, "old", some "od", some "ol"⟩ ⟨1, "new", "nd", "nl"⟩
      (some ["title"]) = .ok ⟨1, "new", "od", "ol"⟩ ∧
    apply_concert_update_mask ⟨2, "cold", none⟩ ⟨2, "cnew", some ⟨86400, 0⟩⟩
      (some ["name"]) = .ok ⟨2, "cnew", none⟩ ∧
    apply_participation_update_mask ⟨3, 4, "r"⟩ (some ["role_title"]) =
      .ok ⟨3, 4, "r"⟩ := by
  have h := c4_masked_merge ⟨1, "old", some "od", some "ol"⟩ ⟨1, "new", "nd", "nl"⟩
      ["title"] ⟨2, "cold", none⟩ ⟨2, "cnew", some ⟨86400, 0⟩⟩ ["name"]
      ⟨3, 4, "r"⟩ ["role_title"]
      (by decide) (by decide) (by decide) (by decide) (by decide) (by decide)
  refine ⟨?_, ?_, h.2.2⟩
  · have h1 := h.1
    simpa [record_to_song] using h1
  · have h2 := h.2.1
    simpa [record_to_concert] using h2

theorem applySongPaths_bad (inc : SongMsg) (paths : List String) (u : SongMsg)
    (hbad : ∃ p ∈ paths, ¬ songPathOk p) :
    applySongPaths inc paths u =
      .error (Status.invalid_argument "unsupported update_mask path") := by
  induction paths generalizing u with
  | nil => simp at hbad
  | cons p ps ih =>
    obtain ⟨q, hq, hqbad⟩ := hbad
    by_cases hp : songPathOk p
    · have hqs : q ∈ ps := by
        rcases List.mem_cons.mp hq with h | h
        · exact absurd (h ▸ hp) hqbad
        · exact h
      rcases hp with h | h | h <;> subst h <;>
        simp [applySongPaths, ih _ ⟨q, hqs, hqbad⟩]
    · have h1 : p ≠ "title" := fun h => hp (Or.inl h)
      have h2 : p ≠ "description" := fun h => hp (Or.inr (Or.inl h))
      have h3 : p ≠ "link" := fun h => hp (Or.inr (Or.inr h))
      simp [applySongPaths, h1, h2, h3]

theorem apply_song_update_mask_bad (ex : SongRecord) (inc : SongMsg)
    (paths : List String) (hbad : ∃ p ∈ paths, ¬ songPathOk p) :
    apply_song_update_mask ex inc (some paths) =
      .error (Status.invalid_argument "unsupported update_mask path") := by
  cases paths with
  | nil => simp at hbad
  | cons p ps =>
    rw [apply_song_update_mask]
    simp only [Option.getD_some, List.isEmpty_cons]
    exact applySongPaths_bad inc _ _ hbad

/-- C6 counterexample: an update request whose mask contains the
unrecognized name `"bogus"` but whose id names no stored record fails
`NotFound`, not `InvalidArgument` — the handler fetches the existing record
before validating the mask. -/
theorem c6_counterexample :
    update_song [] ⟨some ⟨1, "t", "", ""⟩, some ["bogus"]⟩ =
      .error (Status.not_found "song not found") ∧
    Status.not_found "song not found" ≠
      Status.invalid_argument "unsupported update_mask path" := by
  exact ⟨rfl, by decide⟩

/-- C6 amended: for every update request naming an existing record whose
mask contains at least one unrecognized field name, `update_song` fails
with `InvalidArgument("unsupported update_mask path")` and the store is
left unmodified (no store update is performed); when the id names no
stored record the request instead fails `NotFound`, the store again
unmodified. -/
theorem c6_unrecognized_mask_rejected (st : List SongRecord) (song : SongMsg)
    (paths : List String) (hid : song.id ≠ 0)
    (hex : ∃ existing, storeGetSong st song.id = .ok existing)
    (hbad : ∃ p ∈ paths, ¬ songPathOk p) :
    update_song st ⟨some song, some paths⟩ =
      .error (Status.invalid_argument "unsupported update_mask path") ∧
    update_song_store st ⟨some song, some paths⟩ = st := by
  obtain ⟨existing, hget⟩ := hex
  have hmask := apply_song_update_mask_bad existing song paths hbad
  have hupd : update_song st ⟨some song, some paths⟩ =
      .error (Status.invalid_argument "unsupported update_mask path") := by
    unfold update_song
    simp only [hid, if_false, hget, hmask]
  refine ⟨hupd, ?_⟩
  unfold update_song_store
  rw [hupd]

theorem c6_unrecognized_mask_rejected_witness :
    update_song [⟨1, "t", none, none⟩] ⟨some ⟨1, "u", "", ""⟩, some ["bogus"]⟩ =
      .error (Status.invalid_argument "unsupported update_mask path") ∧
    update_song_store [⟨1, "t", none, none⟩] ⟨some ⟨1, "u", "", ""⟩, some ["bogus"]⟩ =
      [⟨1, "t", none, none⟩] := by
  exact c6_unrecognized_mask_rejected [⟨1, "t", none, none⟩] ⟨1, "u", "", ""⟩ ["bogus"]
    (by decide) ⟨⟨1, "t", none, none⟩, by decide⟩ (by decide)

/-- The merge result message viewed again as a stored song record, every
field taken verbatim (the canonical section of `record_to_song`). -/
def song_msg_record (s : SongMsg) : SongRecord :=
  { id := s.id, title := s.title, description := some s.description, link := some s.link }

/-- The merge result message viewed again as a stored concert record,
converting the timestamp back to a calendar date exactly as the
`update_concert` handler does before persisting. -/
def concert_msg_record (c : ConcertMsg) : ConcertRecord :=
  { id := c.id, name := c.name, date := date_from_timestamp c.date }

theorem date_from_timestamp_from_date (d : NaiveDate) :
    date_from_timestamp (timestamp_from_date d) = some d := by
  simp [timestamp_from_date, date_from_timestamp]

theorem date_roundtrip (o : Option NaiveDate) :
    (date_from_timestamp (o.bind timestamp_from_date)).bind timestamp_from_date =
      o.bind timestamp_from_date := by
  cases o with
  | none => rfl
  | some d => simp [date_from_timestamp_from_date]

/-- C7: applying the same non-empty mask of recognized names twice —
feeding the first merge result back as the existing record — yields the
same result as applying it once, for both the song and the concert
merge. -/
theorem c7_merge_idempotent (ex : SongRecord) (inc : SongMsg) (paths : List String)
    (exc : ConcertRecord) (incc : ConcertMsg) (cpaths : List String)
    (hne : paths ≠ []) (hrec : ∀ p ∈ paths, songPathOk p)
    (hcne : cpaths ≠ []) (hcrec : ∀ p ∈ cpaths, concertPathOk p) :
    (∀ r1, apply_song_update_mask ex inc (some paths) = .ok r1 →
      apply_song_update_mask (song_msg_record r1) inc (some paths) = .ok r1) ∧
    (∀ r1, apply_concert_update_mask exc incc (some cpaths) = .ok r1 →
      apply_concert_update_mask (concert_msg_record r1) incc (some cpaths) = .ok r1) := by
  constructor
  · intro r1 h1
    rw [apply_song_update_mask_eq ex inc paths hne hrec] at h1
    rw [apply_song_update_mask_eq (song_msg_record r1) inc paths hne hrec]
    cases h1
    by_cases ht : "title" ∈ paths <;> by_cases hd : "description" ∈ paths <;>
      by_cases hl : "link" ∈ paths <;>
        simp [song_msg_record, record_to_song, ht, hd, hl]
  · intro r1 h1
    rw [apply_concert_update_mask_eq exc incc cpaths hcne hcrec] at h1
    rw [apply_concert_update_mask_eq (concert_msg_record r1) incc cpaths hcne hcrec]
    cases h1
    by_cases hn : "name" ∈ cpaths <;> by_cases hd : "date" ∈ cpaths <;>
      simp [concert_msg_record, record_to_concert, hn, hd, date_roundtrip]

theorem c7_merge_idempotent_witness :
    apply_song_update_mask (song_msg_record ⟨1, "new", "od", "ol"⟩) ⟨1, "new", "nd", "nl"⟩
      (some ["title"]) = .ok ⟨1, "new", "od", "ol"⟩ ∧
    apply_concert_update_mask (concert_msg_record ⟨2, "cnew", none⟩) ⟨2, "cnew", some ⟨0, 0⟩⟩
      (some ["name"]) = .ok ⟨2, "cnew", none⟩ := by
  have h := c7_merge_idempotent ⟨1, "old", some "od", some "ol"⟩ ⟨1, "new", "nd", "nl"⟩
      ["title"] ⟨2, "cold", none⟩ ⟨2, "cnew", some ⟨0, 0⟩⟩ ["name"]
      (by decide) (by decide) (by decide) (by decide)
  exact ⟨h.1 ⟨1, "new", "od", "ol"⟩ (by decide), h.2 ⟨2, "cnew", none⟩ (by decide)⟩

/-- On privileged paths the pipeline's outcome is fully determined by the
`authorization` entry, the decode result and privilege-set membership; the
caller-supplied `x-user-id` does not appear on the right-hand side. -/
theorem pipeline_privileged (secret : String) (admins : List Nat) (now : Nat)
    (req : HttpReq) (hpriv : endsWithStr req.path "/CreateConcert" = true) :
    pipeline secret admins now req =
      match req.authorization with
      | none => .error (Status.unauthenticated "authorization header required")
      | some h =>
        match AuthInterceptor.decode ⟨secret⟩ now (stripBearer h) with
        | .error e => .error e
        | .ok claims =>
          if admins.contains claims.sub then
            .ok { req with x_user_id := some (.num claims.sub) }
          else .error (Status.permission_denied "admin required") := by
  cases hauth : req.authorization with
  | none =>
    simp [pipeline, AuthInterceptor.intercept, hpriv, hauth]
  | some h =>
    cases hdec : AuthInterceptor.decode ⟨secret⟩ now (stripBearer h) with
    | error e =>
      simp [pipeline, AuthInterceptor.intercept, hpriv, hauth, hdec]
    | ok claims =>
      by_cases hmem : admins.contains claims.sub <;>
        simp [pipeline, AuthInterceptor.intercept, AdminOnlyMiddleware.call,
          hpriv, hauth, hdec, parseUserId, hmem]

/-- C1: on every privileged call (path ending in `/CreateConcert`), a
missing `authorization` entry is rejected `Unauthenticated`; a valid token
whose subject is outside the privilege set is rejected `PermissionDenied`;
a valid token whose subject is in the privilege set is forwarded to the
handler (with the verified subject injected as `x-user-id`). -/
theorem c1_privileged_gate (secret : String) (admins : List Nat) (now : Nat)
    (req : HttpReq) (hpriv : endsWithStr req.path "/CreateConcert" = true) :
    (req.authorization = none →
      pipeline secret admins now req =
        .error (Status.unauthenticated "authorization header required")) ∧
    (∀ h claims, req.authorization = some h →
      AuthInterceptor.decode ⟨secret⟩ now (stripBearer h) = .ok claims →
      (admins.contains claims.sub = false →
        pipeline secret admins now req =
          .error (Status.permission_denied "admin required")) ∧
      (admins.contains claims.sub = true →
        pipeline secret admins now req =
          .ok { req with x_user_id := some (.num claims.sub) })) := by
  have hp := pipeline_privileged secret admins now req hpriv
  refine ⟨?_, ?_⟩
  · intro hauth
    rw [hp, hauth]
  · intro h claims hauth hdec
    constructor <;> intro hmem <;> rw [hp, hauth] <;> simp only [hdec] <;>
      rw [hmem] <;> simp

theorem c1_privileged_gate_witness :
    pipeline "k" [42] 0 ⟨"/c.ConcertService/CreateConcert", none, none⟩ =
      .error (Status.unauthenticated "authorization header required") ∧
    pipeline "k" [42] 0 ⟨"/c.ConcertService/CreateConcert",
        some (.bearer (.signed ⟨7, 10, 0, false⟩ "k")), none⟩ =
      .error (Status.permission_denied "admin required") ∧
    pipeline "k" [42] 0 ⟨"/c.ConcertService/CreateConcert",
        some (.bearer (.signed ⟨42, 10, 0, true⟩ "k")), none⟩ =
      .ok ⟨"/c.ConcertService/CreateConcert",
        some (.bearer (.signed ⟨42, 10, 0, true⟩ "k")), some (.num 42)⟩ := by
  refine ⟨(c1_privileged_gate "k" [42] 0 _ (by decide)).1 rfl, ?_, ?_⟩
  · exact ((c1_privileged_gate "k" [42] 0 _ (by decide)).2
      (.bearer (.signed ⟨7, 10, 0, false⟩ "k")) ⟨7, 10, 0, false⟩ rfl
      (by decide)).1 (by decide)
  · exact ((c1_privileged_gate "k" [42] 0 _ (by decide)).2
      (.bearer (.signed ⟨42, 10, 0, true⟩ "k")) ⟨42, 10, 0, true⟩ rfl
      (by decide)).2 (by decide)

/-- C2: on every privileged call, the pipeline's outcome is independent of
any caller-supplied `x-user-id` entry (the Authenticator overwrites it
before the Authorizer reads it), and whenever the call is forwarded, the
forwarded request carries the verified token subject in `x-user-id` and
that subject is in the privilege set — so a spoofed identity header never
makes the Authorizer approve a privileged operation for a non-privileged
subject. -/
theorem c2_spoofed_identity_ineffective (secret : String) (admins : List Nat)
    (now : Nat) (req : HttpReq) (v w : Option UserIdVal)
    (hpriv : endsWithStr req.path "/CreateConcert" = true) :
    pipeline secret admins now { req with x_user_id := v } =
      pipeline secret admins now { req with x_user_id := w } ∧
    (∀ fwd, pipeline secret admins now { req with x_user_id := v } = .ok fwd →
      ∃ h claims, req.authorization = some h ∧
        AuthInterceptor.decode ⟨secret⟩ now (stripBearer h) = .ok claims ∧
        fwd.x_user_id = some (.num claims.sub) ∧
        admins.contains claims.sub = true) := by
  have hpv := pipeline_privileged secret admins now { req with x_user_id := v } hpriv
  have hpw := pipeline_privileged secret admins now { req with x_user_id := w } hpriv
  constructor
  · rw [hpv, hpw]
  · intro fwd hfwd
    rw [hpv] at hfwd
    cases hauth : req.authorization with
    | none => rw [hauth] at hfwd; simp at hfwd
    | some h =>
      rw [hauth] at hfwd
      cases hdec : AuthInterceptor.decode ⟨secret⟩ now (stripBearer h) with
      | error e => simp [hdec] at hfwd
      | ok claims =>
        simp only [hdec] at hfwd
        by_cases hmem : admins.contains claims.sub = true
        · rw [if_pos hmem] at hfwd
          refine ⟨h, claims, rfl, hdec, ?_, hmem⟩
          cases hfwd
          rfl
        · rw [if_neg hmem] at hfwd
          simp at hfwd

theorem c2_spoofed_identity_ineffective_witness :
    pipeline "k" [42] 0 ⟨"/c.ConcertService/CreateConcert",
        some (.raw (.signed ⟨7, 10, 0, false⟩ "k")), some (.num 42)⟩ =
      pipeline "k" [42] 0 ⟨"/c.ConcertService/CreateConcert",
        some (.raw (.signed ⟨7, 10, 0, false⟩ "k")), none⟩ ∧
    (∃ h claims,
      (some (.raw (.signed ⟨42, 10, 0, true⟩ "k")) : Option AuthHeaderVal) = some h ∧
      AuthInterceptor.decode ⟨"k"⟩ 0 (stripBearer h) = .ok claims ∧
      (some (.num claims.sub) : Option UserIdVal) = some (.num claims.sub) ∧
      ([42].contains claims.sub) = true) := by
  constructor
  · exact (c2_spoofed_identity_ineffective "k" [42] 0
      ⟨"/c.ConcertService/CreateConcert",
        some (.raw (.signed ⟨7, 10, 0, false⟩ "k")), none⟩
      (some (.num 42)) none (by decide)).1
  · have h := (c2_spoofed_identity_ineffective "k" [42] 0
      ⟨"/c.ConcertService/CreateConcert",
        some (.raw (.signed ⟨42, 10, 0, true⟩ "k")), none⟩
      (some (.num 7)) none (by decide)).2
      ⟨"/c.ConcertService/CreateConcert",
        some (.raw (.signed ⟨42, 10, 0, true⟩ "k")), some (.num 42)⟩ (by decide)
    obtain ⟨hh, claims, h1, h2, h3, h4⟩ := h
    exact ⟨hh, claims, h1, h2, rfl, h4⟩

/-- C3: for every subject `s`, verifying a token issued for `s` succeeds
and returns subject `s` while the clock is within the time-to-live, fails
(`Unauthenticated`) once the clock reaches or passes `issued_at + ttl`, and
the issued token's privilege flag is set exactly when `s` is in the
privilege set. -/
theorem c3_token_lifecycle (srv : AuthServer) (s t0 t : Nat) :
    (t < t0 + srv.ttl →
      AuthInterceptor.decode ⟨srv.secret⟩ t (srv.sign t0 s) =
        .ok (srv.signClaims t0 s) ∧ (srv.signClaims t0 s).sub = s) ∧
    (t0 + srv.ttl ≤ t →
      AuthInterceptor.decode ⟨srv.secret⟩ t (srv.sign t0 s) =
        .error (Status.unauthenticated "invalid token")) ∧
    ((srv.signClaims t0 s).is_admin = true ↔ s ∈ srv.admin_ids) := by
  refine ⟨?_, ?_, ?_⟩
  · intro hlt
    constructor
    · simp [AuthServer.sign, AuthInterceptor.decode, AuthServer.signClaims, hlt]
    · rfl
  · intro hle
    have : ¬ t < t0 + srv.ttl := not_lt.mpr hle
    simp [AuthServer.sign, AuthInterceptor.decode, AuthServer.signClaims, this]
  · simp [AuthServer.signClaims]

theorem c3_token_lifecycle_witness :
    (AuthInterceptor.decode ⟨"k"⟩ 50 (AuthServer.sign ⟨"k", [42], 100⟩ 0 42) =
      .ok (AuthServer.signClaims ⟨"k", [42], 100⟩ 0 42) ∧
      (AuthServer.signClaims ⟨"k", [42], 100⟩ 0 42).sub = 42) ∧
    AuthInterceptor.decode ⟨"k"⟩ 100 (AuthServer.sign ⟨"k", [42], 100⟩ 0 42) =
      .error (Status.unauthenticated "invalid token") ∧
    ((AuthServer.signClaims ⟨"k", [42], 100⟩ 0 42).is_admin = true ↔
      42 ∈ ([42] : List Nat)) ∧
    ((AuthServer.signClaims ⟨"k", [42], 100⟩ 0 7).is_admin = true ↔
      7 ∈ ([42] : List Nat)) := by
  exact ⟨(c3_token_lifecycle ⟨"k", [42], 100⟩ 42 0 50).1 (by norm_num),
    (c3_token_lifecycle ⟨"k", [42], 100⟩ 42 0 100).2.1 (by norm_num),
    (c3_token_lifecycle ⟨"k", [42], 100⟩ 42 0 100).2.2,
    (c3_token_lifecycle ⟨"k", [42], 100⟩ 7 0 100).2.2⟩

end MusicClub
